import Mathlib

/-!
Verification development for the ao-mcp-server repository.

Shallow embedding of the five tool executors (`executeQueryProcess`,
`executeSendMessage`, `executeSpawnProcess`, `executeEvalLua`,
`executeListResults`) and the dispatcher `handleToolCall`.

Modelling conventions (JavaScript semantics made explicit):
* Optional / possibly-`undefined` string fields are modelled as `String`,
  with `""` standing for both the empty string and `undefined`: the source
  only ever distinguishes such a field by truthiness (`!x`, `x || d`,
  `if (x)`), and both `undefined` and `""` are falsy.  Likewise an
  optional tag array is modelled as a `List Tag` with `[]` for absent,
  since `if (args.tags)` and pushing an empty array agree.
* The external network client (`dryrun`, `message`, `result`, `spawn`,
  `results` from aoconnect) is a black box: each call's mocked outcome is
  a field of `Env`, `Except.error e` standing for a thrown `Error` with
  message `e` (caught by each executor's try/catch).  Every executor
  returns, besides its `ToolResult`, the trace of signing-capability
  derivations and network-client calls it performed, in order.
* `JSON.parse` followed by `JSON.stringify(·, null, 2)` is the oracle
  `Env.jsonPretty : String → Option String`; `none` means `JSON.parse`
  threw, `some p` means it parsed and pretty-printed to `p`.  Wallet
  parsing succeeds exactly when this oracle returns `some`.
* `code.trim().length === 0` is embedded as "every character of `code`
  is whitespace", which is exactly when trimming yields the empty string.
* `s.substring(0, 200)` is embedded as taking the first 200 characters.
-/

namespace AoMcp

/-- A name/value tag attached to an outbound network operation. -/
structure Tag where
  name : String
  value : String
deriving DecidableEq

/-- One item of a tool result envelope; the source always uses type "text". -/
structure ContentItem where
  type : String
  text : String
deriving DecidableEq

/-- The `ToolResult` envelope of src/config.ts: a content array and an
optional error flag (`none` = field absent = success). -/
structure ToolResult where
  content : List ContentItem
  isError : Option Bool := none
deriving DecidableEq

/-- A message returned by the network inside a dryrun/result response. -/
structure AoMessage where
  Tags : List Tag
  Data : String
deriving DecidableEq

/-- Response shape of the network client's `dryrun` and `result` calls:
`{ Messages?, Output?: { data? }, Error? }`, optional fields collapsed to
`[]` / `""` as per the modelling conventions. -/
structure DryrunResult where
  Messages : List AoMessage
  Output : String
  Error : String
deriving DecidableEq

/-- The node of one edge returned by the network client's `results` call. -/
structure ResultNode where
  Output : String
  Messages : List AoMessage
  Error : String
deriving DecidableEq

/-- One edge (cursor + node) returned by the `results` call. -/
structure ResultEdge where
  cursor : String
  node : ResultNode
deriving DecidableEq

/-- Trace entry: one signing-capability derivation or network-client call,
with the arguments the executor passed to it. -/
inductive NetCall where
  | signer : NetCall
  | dryrun : String → List Tag → String → NetCall
  | message : String → List Tag → String → NetCall
  | result : String → String → NetCall
  | spawn : String → String → List Tag → NetCall
  | results : String → Int → Option String → String → NetCall
deriving DecidableEq

/-- Mocked external world: the JSON oracle and the outcome of each network
client call an executor may perform (`Except.error` = the call threw). -/
structure Env where
  jsonPretty : String → Option String
  dryrunRes : Except String DryrunResult
  messageRes : Except String String
  resultRes : Except String DryrunResult
  spawnRes : Except String String
  resultsRes : Except String (List ResultEdge)

/-- AO_CONFIG.AOS_MODULE from src/config.ts. -/
def AOS_MODULE : String := "Do_Uc2Sju_ffp6Ev0AnLVdPtot15rvMjP-a9VVaA5fM"

/-- AO_CONFIG.SCHEDULER from src/config.ts. -/
def SCHEDULER : String := "_GQ33BkPtZrqxA84vM8Zk-N2aO0toNNu_C-l-rawrBA"

/-- An error envelope: one text content item and `isError: true`. -/
def errEnvelope (t : String) : ToolResult :=
  { content := [{ type := "text", text := t }], isError := some true }

/-- A success envelope: one text content item, `isError` absent. -/
def okEnvelope (t : String) : ToolResult :=
  { content := [{ type := "text", text := t }] }

/-- The invalid-process-id error text each pid-validating executor emits. -/
def invalidPid (pid : String) : String :=
  "Error: Invalid process ID \"" ++ pid ++ "\". Must be a 43-character Arweave transaction ID."

/-- Embeds `tags?.find(t => t.name === "Action")`. -/
def findAction (tags : List Tag) : Option Tag :=
  tags.find? (fun t => t.name == "Action")

/-- Embeds the display `actionTag?.value || "unknown"`. -/
def actionDisp (t : Option Tag) : String :=
  match t with
  | some tag => if tag.value = "" then "unknown" else tag.value
  | none => "unknown"

/-- Arguments of executeQueryProcess (src/tools/query-process.ts). -/
structure QueryProcessArgs where
  process_id : String
  action : String
  data : String
  tags : List Tag
deriving DecidableEq

/-- Arguments of executeSendMessage (src/tools/send-message.ts). -/
structure SendMessageArgs where
  process_id : String
  action : String
  data : String
  tags : List Tag
  wallet_json : String
deriving DecidableEq

/-- Arguments of executeSpawnProcess (src/tools/spawn-process.ts). -/
structure SpawnProcessArgs where
  name : String
  module : String
  scheduler : String
  tags : List Tag
  wallet_json : String
deriving DecidableEq

/-- Arguments of executeEvalLua (src/tools/eval-lua.ts). -/
structure EvalLuaArgs where
  process_id : String
  code : String
  wallet_json : String
deriving DecidableEq

/-- Arguments of executeListResults (src/tools/list-results.ts); the
pagination cursor `from` is named `fromCursor` (`from` is a Lean keyword). -/
structure ListResultsArgs where
  process_id : String
  limit : Int
  fromCursor : Option String
  sort : String
deriving DecidableEq

/-- Embedding of executeQueryProcess: validate the process id, build the
tag sequence `[{Action: action || "Info"}, ...args.tags]`, issue a dryrun
with data `args.data || "{}"`, then interpret the response: first message
(error-tagged → error envelope; else pretty-or-raw data), else truthy
output, else truthy error field, else the "no response" text. -/
def executeQueryProcess (env : Env) (args : QueryProcessArgs) : ToolResult × List NetCall :=
  if args.process_id = "" ∨ args.process_id.length ≠ 43 then
    (errEnvelope (invalidPid args.process_id), [])
  else
    let tags : List Tag :=
      { name := "Action", value := if args.action = "" then "Info" else args.action } :: args.tags
    let data := if args.data = "" then "{}" else args.data
    let trace := [NetCall.dryrun args.process_id tags data]
    match env.dryrunRes with
    | Except.error e => (errEnvelope ("Error querying process: " ++ e), trace)
    | Except.ok response =>
      match response.Messages with
      | msg :: _ =>
        let actionTag := findAction msg.Tags
        if actionTag.map Tag.value = some "Error" then
          (errEnvelope ("Process returned error: " ++ msg.Data), trace)
        else
          match env.jsonPretty msg.Data with
          | some pretty =>
            (okEnvelope ("Process response (Action: " ++ actionDisp actionTag ++ "):\n" ++ pretty), trace)
          | none =>
            (okEnvelope ("Process response (Action: " ++ actionDisp actionTag ++ "):\n" ++ msg.Data), trace)
      | [] =>
        if response.Output ≠ "" then
          (okEnvelope ("Process output:\n" ++ response.Output), trace)
        else if response.Error ≠ "" then
          (errEnvelope ("Process error: " ++ response.Error), trace)
        else
          (okEnvelope "No response from process. The process may not have a handler for this action.", trace)

/-- Embedding of executeSendMessage: validate pid then wallet, derive the
signer, send the tagged message (`[{Action: action}, ...tags]`, data
`args.data || "{}"`), fetch the result for the returned message id, then
interpret: first message (error-tagged → error; else pretty-or-raw data),
else truthy Error field (checked BEFORE Output, unlike the query path),
else truthy Output, else the "No response data returned." success text. -/
def executeSendMessage (env : Env) (args : SendMessageArgs) : ToolResult × List NetCall :=
  if args.process_id = "" ∨ args.process_id.length ≠ 43 then
    (errEnvelope (invalidPid args.process_id), [])
  else if args.wallet_json = "" then
    (errEnvelope "Error: wallet_json is required for sending messages. Provide the JSON content of your Arweave wallet.", [])
  else
    match env.jsonPretty args.wallet_json with
    | none => (errEnvelope "Error: Invalid wallet JSON. Ensure it is a valid Arweave JWK.", [])
    | some _ =>
      let tags : List Tag := { name := "Action", value := args.action } :: args.tags
      let data := if args.data = "" then "{}" else args.data
      let sendCall := NetCall.message args.process_id tags data
      match env.messageRes with
      | Except.error e => (errEnvelope ("Error sending message: " ++ e), [NetCall.signer, sendCall])
      | Except.ok msgId =>
        let trace := [NetCall.signer, sendCall, NetCall.result args.process_id msgId]
        match env.resultRes with
        | Except.error e => (errEnvelope ("Error sending message: " ++ e), trace)
        | Except.ok res =>
          match res.Messages with
          | msg :: _ =>
            let actionTag := findAction msg.Tags
            if actionTag.map Tag.value = some "Error" then
              (errEnvelope ("Message sent (ID: " ++ msgId ++ ") but process returned error:\n" ++ msg.Data), trace)
            else
              match env.jsonPretty msg.Data with
              | some pretty =>
                (okEnvelope ("Message sent successfully!\nMessage ID: " ++ msgId ++ "\nAction: " ++ actionDisp actionTag ++ "\nResponse:\n" ++ pretty), trace)
              | none =>
                (okEnvelope ("Message sent successfully!\nMessage ID: " ++ msgId ++ "\nAction: " ++ actionDisp actionTag ++ "\nResponse:\n" ++ msg.Data), trace)
          | [] =>
            if res.Error ≠ "" then
              (errEnvelope ("Message sent (ID: " ++ msgId ++ ") but process error: " ++ res.Error), trace)
            else if res.Output ≠ "" then
              (okEnvelope ("Message sent successfully!\nMessage ID: " ++ msgId ++ "\nOutput:\n" ++ res.Output), trace)
            else
              (okEnvelope ("Message sent successfully!\nMessage ID: " ++ msgId ++ "\nNo response data returned."), trace)

/-- Embedding of executeSpawnProcess: validate wallet, derive the signer,
build `[{Name: name}]` only if a (truthy) name was supplied followed by
caller tags — no Action tag — and spawn with the defaulted module and
scheduler, reporting the new process id on success. -/
def executeSpawnProcess (env : Env) (args : SpawnProcessArgs) : ToolResult × List NetCall :=
  if args.wallet_json = "" then
    (errEnvelope "Error: wallet_json is required for spawning processes. Provide the JSON content of your Arweave wallet.", [])
  else
    match env.jsonPretty args.wallet_json with
    | none => (errEnvelope "Error: Invalid wallet JSON. Ensure it is a valid Arweave JWK.", [])
    | some _ =>
      let tags : List Tag :=
        (if args.name ≠ "" then [{ name := "Name", value := args.name }] else []) ++ args.tags
      let moduleId := if args.module = "" then AOS_MODULE else args.module
      let schedulerId := if args.scheduler = "" then SCHEDULER else args.scheduler
      let trace := [NetCall.signer, NetCall.spawn moduleId schedulerId tags]
      match env.spawnRes with
      | Except.error e => (errEnvelope ("Error spawning process: " ++ e), trace)
      | Except.ok pid =>
        (okEnvelope ("Process spawned successfully!\n\nProcess ID: " ++ pid ++ "\nModule: " ++ moduleId ++ "\nScheduler: " ++ schedulerId ++ (if args.name ≠ "" then "\nName: " ++ args.name else "") ++ "\n\nYou can now send messages to this process using the ao_send_message tool."), trace)

/-- Embedding of executeEvalLua: validate pid, then non-blank code, then
wallet; derive the signer, send an `[{Action: "Eval"}]` message whose data
is the raw code, fetch its result, and interpret: truthy Error field
first, then an error-tagged first message, then success including output
and (if a message exists) its data. -/
def executeEvalLua (env : Env) (args : EvalLuaArgs) : ToolResult × List NetCall :=
  if args.process_id = "" ∨ args.process_id.length ≠ 43 then
    (errEnvelope (invalidPid args.process_id), [])
  else if args.code = "" ∨ args.code.data.all (fun c => c.isWhitespace) then
    (errEnvelope "Error: code is required. Provide Lua code to execute.", [])
  else if args.wallet_json = "" then
    (errEnvelope "Error: wallet_json is required for executing Lua code. Provide the JSON content of your Arweave wallet.", [])
  else
    match env.jsonPretty args.wallet_json with
    | none => (errEnvelope "Error: Invalid wallet JSON. Ensure it is a valid Arweave JWK.", [])
    | some _ =>
      let sendCall := NetCall.message args.process_id [{ name := "Action", value := "Eval" }] args.code
      match env.messageRes with
      | Except.error e => (errEnvelope ("Error executing Lua code: " ++ e), [NetCall.signer, sendCall])
      | Except.ok msgId =>
        let trace := [NetCall.signer, sendCall, NetCall.result args.process_id msgId]
        match env.resultRes with
        | Except.error e => (errEnvelope ("Error executing Lua code: " ++ e), trace)
        | Except.ok res =>
          if res.Error ≠ "" then
            (errEnvelope ("Lua execution error:\n" ++ res.Error), trace)
          else
            match res.Messages with
            | msg :: _ =>
              let actionTag := findAction msg.Tags
              if actionTag.map Tag.value = some "Error" then
                (errEnvelope ("Lua execution error:\n" ++ msg.Data), trace)
              else
                (okEnvelope ("Lua code executed successfully!\nMessage ID: " ++ msgId ++ "\n\nOutput:\n" ++ (if res.Output = "" then "(no output)" else res.Output) ++ "\n\nResponse (Action: " ++ actionDisp actionTag ++ "):\n" ++ (if msg.Data = "" then "(no data)" else msg.Data)), trace)
            | [] =>
              (okEnvelope ("Lua code executed successfully!\nMessage ID: " ++ msgId ++ "\n\nOutput:\n" ++ (if res.Output = "" then "(no output)" else res.Output)), trace)

/-- Embedding of `s.substring(0, 200)`: the first 200 characters of `s`. -/
def truncTo200 (s : String) : String :=
  String.mk (s.data.take 200)

/-- Embedding of the per-edge formatter inlined in executeListResults's
`res.edges.map((edge, index) => ...)`. -/
def formatResultEdge (index : Nat) (edge : ResultEdge) : String :=
  let node := edge.node
  let base := "--- Result " ++ toString (index + 1) ++ " (cursor: " ++ edge.cursor ++ ") ---\n"
  let withErr := base ++ (if node.Error ≠ "" then "Error: " ++ node.Error ++ "\n" else "")
  let withOut := withErr ++
    (if node.Output ≠ "" then
      "Output: " ++ truncTo200 node.Output ++ (if node.Output.length > 200 then "..." else "") ++ "\n"
    else "")
  match node.Messages with
  | msg :: _ =>
    withOut ++ "Message Action: " ++ actionDisp (findAction msg.Tags) ++ "\n" ++
      (if msg.Data ≠ "" then
        "Message Data: " ++ truncTo200 msg.Data ++ (if msg.Data.length > 200 then "..." else "") ++ "\n"
      else "")
  | [] => withOut

/-- Embedding of `edges.map((edge, index) => ...)`: indexed map from 0. -/
def mapIdxFrom (f : Nat → ResultEdge → String) (i : Nat) : List ResultEdge → List String
  | [] => []
  | e :: t => f i e :: mapIdxFrom f (i + 1) t

/-- Embedding of executeListResults: validate the process id, query the
network with `limit || 10` and `sort || "DESC"`, then render either the
"No results found" text or the joined formatted edges. -/
def executeListResults (env : Env) (args : ListResultsArgs) : ToolResult × List NetCall :=
  if args.process_id = "" ∨ args.process_id.length ≠ 43 then
    (errEnvelope (invalidPid args.process_id), [])
  else
    let limit := if args.limit = 0 then 10 else args.limit
    let sortOrder := if args.sort = "" then "DESC" else args.sort
    let trace := [NetCall.results args.process_id limit args.fromCursor sortOrder]
    match env.resultsRes with
    | Except.error e => (errEnvelope ("Error listing results: " ++ e), trace)
    | Except.ok edges =>
      match edges with
      | [] => (okEnvelope ("No results found for process " ++ args.process_id), trace)
      | _ =>
        (okEnvelope ("Results for process " ++ args.process_id ++ ":\n\n" ++ String.intercalate "\n" (mapIdxFrom formatResultEdge 0 edges)), trace)

/-- The duck-typed argument mapping a tool call delivers; every field is
optional, mirroring `Record<string, unknown>` before the unchecked casts. -/
structure RawArgs where
  process_id : Option String := none
  action : Option String := none
  data : Option String := none
  tags : Option (List Tag) := none
  wallet_json : Option String := none
  name : Option String := none
  module : Option String := none
  scheduler : Option String := none
  limit : Option Int := none
  fromCursor : Option String := none
  sort : Option String := none
  code : Option String := none

/-- Cast `args as unknown as QueryProcessArgs` (absent collapses to falsy). -/
def toQueryArgs (r : RawArgs) : QueryProcessArgs :=
  { process_id := r.process_id.getD "", action := r.action.getD "",
    data := r.data.getD "", tags := r.tags.getD [] }

/-- Cast `args as unknown as SendMessageArgs` (absent collapses to falsy). -/
def toSendArgs (r : RawArgs) : SendMessageArgs :=
  { process_id := r.process_id.getD "", action := r.action.getD "",
    data := r.data.getD "", tags := r.tags.getD [], wallet_json := r.wallet_json.getD "" }

/-- Cast `args as unknown as SpawnProcessArgs` (absent collapses to falsy). -/
def toSpawnArgs (r : RawArgs) : SpawnProcessArgs :=
  { name := r.name.getD "", module := r.module.getD "",
    scheduler := r.scheduler.getD "", tags := r.tags.getD [],
    wallet_json := r.wallet_json.getD "" }

/-- Cast `args as unknown as EvalLuaArgs` (absent collapses to falsy). -/
def toEvalArgs (r : RawArgs) : EvalLuaArgs :=
  { process_id := r.process_id.getD "", code := r.code.getD "",
    wallet_json := r.wallet_json.getD "" }

/-- Cast `args as unknown as ListResultsArgs` (absent collapses to falsy). -/
def toListArgs (r : RawArgs) : ListResultsArgs :=
  { process_id := r.process_id.getD "", limit := r.limit.getD 0,
    fromCursor := r.fromCursor, sort := r.sort.getD "" }

/-- Embedding of handleToolCall (src/tools/index.ts): exact-name dispatch
to the five executors, with the `Unknown tool` error envelope as default. -/
def handleToolCall (env : Env) (name : String) (args : RawArgs) : ToolResult × List NetCall :=
  match name with
  | "ao_query_process" => executeQueryProcess env (toQueryArgs args)
  | "ao_send_message" => executeSendMessage env (toSendArgs args)
  | "ao_spawn_process" => executeSpawnProcess env (toSpawnArgs args)
  | "ao_eval_lua" => executeEvalLua env (toEvalArgs args)
  | "ao_list_results" => executeListResults env (toListArgs args)
  | _ => ({ content := [{ type := "text", text := "Unknown tool: " ++ name }], isError := some true }, [])

/-- A valid-length (43-character) process identifier for concrete runs. -/
def pidA : String := "aaaaaaaaaaaaaaaaaaaaaaaaaaaaaaaaaaaaaaaaaaa"

/-- A neutral concrete environment: the JSON oracle parses only "{}", and
every network call succeeds with an empty response. -/
def envN : Env :=
  { jsonPretty := fun s => if s = "{}" then some "{}" else none,
    dryrunRes := Except.ok { Messages := [], Output := "", Error := "" },
    messageRes := Except.ok "MID",
    resultRes := Except.ok { Messages := [], Output := "", Error := "" },
    spawnRes := Except.ok "NEWPID",
    resultsRes := Except.ok [] }

/-- A response with no messages but both an output and an error field. -/
def respOE : DryrunResult := { Messages := [], Output := "o", Error := "e" }

/-- Environment whose dryrun and result calls both return `respOE`. -/
def envOE : Env := { envN with dryrunRes := Except.ok respOE, resultRes := Except.ok respOE }

/-- Does `hay` start with `needle`? -/
def leadsWith : List Char → List Char → Bool
  | _, [] => true
  | [], _ :: _ => false
  | h :: hs, n :: ns => h == n && leadsWith hs ns

/-- Does `needle` occur as a contiguous run inside `hay`? -/
def hasSub : List Char → List Char → Bool
  | [], needle => needle.isEmpty
  | h :: t, needle => leadsWith (h :: t) needle || hasSub t needle

/-- Does the text contain the substring "wallet"? -/
def mentionsWallet (s : String) : Bool := hasSub s.data "wallet".data

/-- The text of the first content item of an envelope ("" if none). -/
def firstText (r : ToolResult) : String :=
  match r.content with
  | c :: _ => c.text
  | [] => ""

/-- The claimed envelope shape: exactly one content item, of type "text". -/
def goodShape (r : ToolResult) : Prop :=
  ∃ t, r.content = [{ type := "text", text := t }]

theorem valid_pid_cond {pid : String} (h : pid.length = 43) :
    ¬(pid = "" ∨ pid.length ≠ 43) := by
  rintro (h0 | hn)
  · subst h0; simp at h
  · exact hn h

/-- C1: for every process identifier whose length is not exactly 43
(including the empty string), each of the four process-identifier-accepting
executors (query, send-message, evaluate-code, list-results) returns the
invalid-process-id error envelope (`isError: true`) and performs zero
signing or network-client calls. -/
theorem claim_C1 (env : Env) (pid : String) (hlen : pid.length ≠ 43) :
    (∀ a d tg, executeQueryProcess env ⟨pid, a, d, tg⟩ = (errEnvelope (invalidPid pid), []))
    ∧ (∀ a d tg w, executeSendMessage env ⟨pid, a, d, tg, w⟩ = (errEnvelope (invalidPid pid), []))
    ∧ (∀ c w, executeEvalLua env ⟨pid, c, w⟩ = (errEnvelope (invalidPid pid), []))
    ∧ (∀ l f s, executeListResults env ⟨pid, l, f, s⟩ = (errEnvelope (invalidPid pid), [])) := by
  refine ⟨fun a d tg => ?_, fun a d tg w => ?_, fun c w => ?_, fun l f s => ?_⟩
  · unfold executeQueryProcess; rw [if_pos (Or.inr hlen)]
  · unfold executeSendMessage; rw [if_pos (Or.inr hlen)]
  · unfold executeEvalLua; rw [if_pos (Or.inr hlen)]
  · unfold executeListResults; rw [if_pos (Or.inr hlen)]

theorem claim_C1_witness :
    ("short".length ≠ 43)
    ∧ executeQueryProcess envN ⟨"short", "Info", "", []⟩ = (errEnvelope (invalidPid "short"), [])
    ∧ executeSendMessage envN ⟨"short", "Info", "", [], "{}"⟩ = (errEnvelope (invalidPid "short"), [])
    ∧ executeEvalLua envN ⟨"short", "return 1", "{}"⟩ = (errEnvelope (invalidPid "short"), [])
    ∧ executeListResults envN ⟨"short", 5, none, "ASC"⟩ = (errEnvelope (invalidPid "short"), []) := by
  have h := claim_C1 envN "short" (by decide)
  exact ⟨by decide, h.1 "Info" "" [], h.2.1 "Info" "" [] "{}", h.2.2.1 "return 1" "{}",
    h.2.2.2 5 none "ASC"⟩

/-- C2: for every query response, executeQueryProcess interprets it in
priority order: (1) a first returned message whose Action tag is "Error"
yields an error envelope with that message's data; (2) any other first
message yields a success envelope with its data pretty-printed when it
parses as JSON and raw otherwise; (3) with no messages, truthy output data
yields success; (4) else a truthy error field yields an error envelope;
(5) else the non-error "no response" text. -/
theorem claim_C2 (env : Env) (args : QueryProcessArgs) (hpid : args.process_id.length = 43) :
    (∀ m ms out err, env.dryrunRes = Except.ok ⟨m :: ms, out, err⟩ →
      ((findAction m.Tags).map Tag.value = some "Error" →
        (executeQueryProcess env args).1 = errEnvelope ("Process returned error: " ++ m.Data))
      ∧ ((findAction m.Tags).map Tag.value ≠ some "Error" →
        (executeQueryProcess env args).1 =
          okEnvelope ("Process response (Action: " ++ actionDisp (findAction m.Tags) ++ "):\n"
            ++ (env.jsonPretty m.Data).getD m.Data)))
    ∧ (∀ out err, out ≠ "" → env.dryrunRes = Except.ok ⟨[], out, err⟩ →
        (executeQueryProcess env args).1 = okEnvelope ("Process output:\n" ++ out))
    ∧ (∀ err, err ≠ "" → env.dryrunRes = Except.ok ⟨[], "", err⟩ →
        (executeQueryProcess env args).1 = errEnvelope ("Process error: " ++ err))
    ∧ (env.dryrunRes = Except.ok ⟨[], "", ""⟩ →
        (executeQueryProcess env args).1 =
          okEnvelope "No response from process. The process may not have a handler for this action.") := by
  have hv := valid_pid_cond hpid
  refine ⟨fun m ms out err hdry => ⟨fun herr => ?_, fun hne => ?_⟩,
          fun out err hout hdry => ?_, fun err herr hdry => ?_, fun hdry => ?_⟩ <;>
    unfold executeQueryProcess <;> rw [if_neg hv, hdry] <;> dsimp only
  · rw [if_pos herr]
  · rw [if_neg hne]; cases h : env.jsonPretty m.Data <;> simp [h]
  · rw [if_pos hout]
  · rw [if_neg (by simp), if_pos herr]
  · rfl

theorem claim_C2_witness :
    (pidA.length = 43)
    ∧ (executeQueryProcess { envN with
          dryrunRes := Except.ok ⟨[⟨[⟨"Action", "Error"⟩], "boom"⟩], "", ""⟩ }
        ⟨pidA, "Info", "", []⟩).1 = errEnvelope "Process returned error: boom"
    ∧ (executeQueryProcess { envN with
          dryrunRes := Except.ok ⟨[⟨[⟨"Action", "Info"⟩], "raw"⟩], "", ""⟩ }
        ⟨pidA, "Info", "", []⟩).1 = okEnvelope "Process response (Action: Info):\nraw"
    ∧ (executeQueryProcess { envN with dryrunRes := Except.ok ⟨[], "out", "e"⟩ }
        ⟨pidA, "Info", "", []⟩).1 = okEnvelope "Process output:\nout"
    ∧ (executeQueryProcess { envN with dryrunRes := Except.ok ⟨[], "", "bad"⟩ }
        ⟨pidA, "Info", "", []⟩).1 = errEnvelope "Process error: bad"
    ∧ (executeQueryProcess envN ⟨pidA, "Info", "", []⟩).1 =
        okEnvelope "No response from process. The process may not have a handler for this action." := by
  refine ⟨by decide, ?_, ?_, ?_, ?_, ?_⟩
  · exact ((claim_C2 { envN with
        dryrunRes := Except.ok ⟨[⟨[⟨"Action", "Error"⟩], "boom"⟩], "", ""⟩ }
      ⟨pidA, "Info", "", []⟩ (by decide)).1 ⟨[⟨"Action", "Error"⟩], "boom"⟩ [] "" "" rfl).1 (by decide)
  · have h := ((claim_C2 { envN with
        dryrunRes := Except.ok ⟨[⟨[⟨"Action", "Info"⟩], "raw"⟩], "", ""⟩ }
      ⟨pidA, "Info", "", []⟩ (by decide)).1 ⟨[⟨"Action", "Info"⟩], "raw"⟩ [] "" "" rfl).2 (by decide)
    simpa using h
  · exact (claim_C2 { envN with dryrunRes := Except.ok ⟨[], "out", "e"⟩ }
      ⟨pidA, "Info", "", []⟩ (by decide)).2.1 "out" "e" (by decide) rfl
  · exact (claim_C2 { envN with dryrunRes := Except.ok ⟨[], "", "bad"⟩ }
      ⟨pidA, "Info", "", []⟩ (by decide)).2.2.1 "bad" (by decide) rfl
  · exact (claim_C2 envN ⟨pidA, "Info", "", []⟩ (by decide)).2.2.2 rfl

/-- C3 counterexample: the same outcome — no returned messages, output
data "o" present AND error field "e" present — is classified as a success
(output wins) by executeQueryProcess but as an error (error field wins) by
executeSendMessage, so the send executor does NOT check the error field
with the same priority relative to the output field as the query executor,
refuting the claim. -/
theorem claim_C3_cex :
    (executeQueryProcess envOE ⟨pidA, "Info", "{}", []⟩).1 = okEnvelope "Process output:\no"
    ∧ (executeQueryProcess envOE ⟨pidA, "Info", "{}", []⟩).1.isError = none
    ∧ (executeSendMessage envOE ⟨pidA, "Info", "{}", [], "{}"⟩).1 =
        errEnvelope "Message sent (ID: MID) but process error: e"
    ∧ (executeSendMessage envOE ⟨pidA, "Info", "{}", [], "{}"⟩).1.isError = some true := by
  refine ⟨by decide, by decide, by decide, by decide⟩

/-- C3 (amended): executeSendMessage interprets the outcome fetch in this
priority order: an Error-tagged first returned message yields an error
envelope including the message id; otherwise the first message's data is
returned (JSON-pretty-printed or raw); otherwise an explicit (truthy)
error field yields an error envelope; otherwise truthy output data yields
success; otherwise a success message noting no response data was
returned.  When no messages are returned, the error field is checked
BEFORE the output field — the opposite relative priority to
executeQueryProcess, which checks output before the error field. -/
theorem claim_C3 (env : Env) (args : SendMessageArgs) (msgId : String)
    (hpid : args.process_id.length = 43) (hw : args.wallet_json ≠ "")
    (hwp : (env.jsonPretty args.wallet_json).isSome)
    (hmsg : env.messageRes = Except.ok msgId) :
    (∀ m ms out err, env.resultRes = Except.ok ⟨m :: ms, out, err⟩ →
      ((findAction m.Tags).map Tag.value = some "Error" →
        (executeSendMessage env args).1 =
          errEnvelope ("Message sent (ID: " ++ msgId ++ ") but process returned error:\n" ++ m.Data))
      ∧ ((findAction m.Tags).map Tag.value ≠ some "Error" →
        (executeSendMessage env args).1 =
          okEnvelope ("Message sent successfully!\nMessage ID: " ++ msgId ++ "\nAction: "
            ++ actionDisp (findAction m.Tags) ++ "\nResponse:\n" ++ (env.jsonPretty m.Data).getD m.Data)))
    ∧ (∀ out err, err ≠ "" → env.resultRes = Except.ok ⟨[], out, err⟩ →
        (executeSendMessage env args).1 =
          errEnvelope ("Message sent (ID: " ++ msgId ++ ") but process error: " ++ err))
    ∧ (∀ out, out ≠ "" → env.resultRes = Except.ok ⟨[], out, ""⟩ →
        (executeSendMessage env args).1 =
          okEnvelope ("Message sent successfully!\nMessage ID: " ++ msgId ++ "\nOutput:\n" ++ out))
    ∧ (env.resultRes = Except.ok ⟨[], "", ""⟩ →
        (executeSendMessage env args).1 =
          okEnvelope ("Message sent successfully!\nMessage ID: " ++ msgId ++ "\nNo response data returned.")) := by
  have hv := valid_pid_cond hpid
  obtain ⟨j, hj⟩ := Option.isSome_iff_exists.mp hwp
  refine ⟨fun m ms out err hres => ⟨fun herr => ?_, fun hne => ?_⟩,
          fun out err herr hres => ?_, fun out hout hres => ?_, fun hres => ?_⟩ <;>
    unfold executeSendMessage <;> rw [if_neg hv, if_neg hw, hj] <;> dsimp only <;>
    rw [hmsg] <;> dsimp only <;> rw [hres] <;> dsimp only
  · rw [if_pos herr]
  · rw [if_neg hne]; cases h : env.jsonPretty m.Data <;> simp [h]
  · rw [if_pos herr]
  · rw [if_neg (by simp), if_pos hout]
  · rfl

theorem claim_C3_witness :
    (pidA.length = 43)
    ∧ (executeSendMessage { envN with
          resultRes := Except.ok ⟨[⟨[⟨"Action", "Error"⟩], "boom"⟩], "", ""⟩ }
        ⟨pidA, "Go", "", [], "{}"⟩).1 = errEnvelope "Message sent (ID: MID) but process returned error:\nboom"
    ∧ (executeSendMessage { envN with
          resultRes := Except.ok ⟨[⟨[⟨"Action", "Reply"⟩], "raw"⟩], "", ""⟩ }
        ⟨pidA, "Go", "", [], "{}"⟩).1 =
        okEnvelope "Message sent successfully!\nMessage ID: MID\nAction: Reply\nResponse:\nraw"
    ∧ (executeSendMessage { envN with resultRes := Except.ok ⟨[], "out", "e"⟩ }
        ⟨pidA, "Go", "", [], "{}"⟩).1 = errEnvelope "Message sent (ID: MID) but process error: e"
    ∧ (executeSendMessage { envN with resultRes := Except.ok ⟨[], "out", ""⟩ }
        ⟨pidA, "Go", "", [], "{}"⟩).1 =
        okEnvelope "Message sent successfully!\nMessage ID: MID\nOutput:\nout"
    ∧ (executeSendMessage envN ⟨pidA, "Go", "", [], "{}"⟩).1 =
        okEnvelope "Message sent successfully!\nMessage ID: MID\nNo response data returned." := by
  refine ⟨by decide, ?_, ?_, ?_, ?_, ?_⟩
  · exact ((claim_C3 { envN with
        resultRes := Except.ok ⟨[⟨[⟨"Action", "Error"⟩], "boom"⟩], "", ""⟩ }
      ⟨pidA, "Go", "", [], "{}"⟩ "MID" (by decide) (by decide) (by decide) rfl).1
        ⟨[⟨"Action", "Error"⟩], "boom"⟩ [] "" "" rfl).1 (by decide)
  · have h := ((claim_C3 { envN with
        resultRes := Except.ok ⟨[⟨[⟨"Action", "Reply"⟩], "raw"⟩], "", ""⟩ }
      ⟨pidA, "Go", "", [], "{}"⟩ "MID" (by decide) (by decide) (by decide) rfl).1
        ⟨[⟨"Action", "Reply"⟩], "raw"⟩ [] "" "" rfl).2 (by decide)
    simpa using h
  · exact (claim_C3 { envN with resultRes := Except.ok ⟨[], "out", "e"⟩ }
      ⟨pidA, "Go", "", [], "{}"⟩ "MID" (by decide) (by decide) (by decide) rfl).2.1 "out" "e"
        (by decide) rfl
  · exact (claim_C3 { envN with resultRes := Except.ok ⟨[], "out", ""⟩ }
      ⟨pidA, "Go", "", [], "{}"⟩ "MID" (by decide) (by decide) (by decide) rfl).2.2.1 "out"
        (by decide) rfl
  · exact (claim_C3 envN ⟨pidA, "Go", "", [], "{}"⟩ "MID" (by decide) (by decide) (by decide)
      rfl).2.2.2 rfl

/-- C4 counterexample: executeSendMessage called with an invalid (empty)
process id AND empty wallet key material returns an error envelope, with
no signing or network call, but its text is the invalid-process-id
message, which does not mention "wallet" — so the claim, universally
quantified over all arguments with bad wallet material, is false. -/
theorem claim_C4_cex :
    (executeSendMessage envN ⟨"", "X", "", [], ""⟩).1.isError = some true
    ∧ mentionsWallet (firstText (executeSendMessage envN ⟨"", "X", "", [], ""⟩).1) = false := by
  refine ⟨by decide, by decide⟩

/-- C4 (amended): for every write-path executor whose earlier validations
pass (a 43-character process id for send-message and evaluate-code, and
non-blank code for evaluate-code; spawn-process has no earlier check),
wallet key material that is absent/empty or fails to parse as JSON yields
an envelope with `isError: true` whose text mentions "wallet", with no
signing-capability derivation and no network-client call performed. -/
theorem claim_C4 (env : Env) :
    (∀ args : SendMessageArgs, args.process_id.length = 43 →
      (args.wallet_json = "" ∨ env.jsonPretty args.wallet_json = none) →
      (executeSendMessage env args).1.isError = some true
      ∧ mentionsWallet (firstText (executeSendMessage env args).1) = true
      ∧ (executeSendMessage env args).2 = [])
    ∧ (∀ args : SpawnProcessArgs,
      (args.wallet_json = "" ∨ env.jsonPretty args.wallet_json = none) →
      (executeSpawnProcess env args).1.isError = some true
      ∧ mentionsWallet (firstText (executeSpawnProcess env args).1) = true
      ∧ (executeSpawnProcess env args).2 = [])
    ∧ (∀ args : EvalLuaArgs, args.process_id.length = 43 →
      ¬(args.code = "" ∨ args.code.data.all (fun c => c.isWhitespace)) →
      (args.wallet_json = "" ∨ env.jsonPretty args.wallet_json = none) →
      (executeEvalLua env args).1.isError = some true
      ∧ mentionsWallet (firstText (executeEvalLua env args).1) = true
      ∧ (executeEvalLua env args).2 = []) := by
  refine ⟨fun args hpid hbad => ?_, fun args hbad => ?_, fun args hpid hcode hbad => ?_⟩
  · unfold executeSendMessage
    rw [if_neg (valid_pid_cond hpid)]
    by_cases hw0 : args.wallet_json = ""
    · rw [if_pos hw0]; exact ⟨rfl, by decide, rfl⟩
    · rw [if_neg hw0, hbad.resolve_left hw0]; dsimp only; exact ⟨rfl, by decide, rfl⟩
  · unfold executeSpawnProcess
    by_cases hw0 : args.wallet_json = ""
    · rw [if_pos hw0]; exact ⟨rfl, by decide, rfl⟩
    · rw [if_neg hw0, hbad.resolve_left hw0]; dsimp only; exact ⟨rfl, by decide, rfl⟩
  · unfold executeEvalLua
    rw [if_neg (valid_pid_cond hpid), if_neg hcode]
    by_cases hw0 : args.wallet_json = ""
    · rw [if_pos hw0]; exact ⟨rfl, by decide, rfl⟩
    · rw [if_neg hw0, hbad.resolve_left hw0]; dsimp only; exact ⟨rfl, by decide, rfl⟩

theorem claim_C4_witness :
    ((executeSendMessage envN ⟨pidA, "X", "", [], ""⟩).1.isError = some true
      ∧ mentionsWallet (firstText (executeSendMessage envN ⟨pidA, "X", "", [], ""⟩).1) = true
      ∧ (executeSendMessage envN ⟨pidA, "X", "", [], ""⟩).2 = [])
    ∧ ((executeSpawnProcess envN ⟨"", "", "", [], "not json"⟩).1.isError = some true
      ∧ mentionsWallet (firstText (executeSpawnProcess envN ⟨"", "", "", [], "not json"⟩).1) = true
      ∧ (executeSpawnProcess envN ⟨"", "", "", [], "not json"⟩).2 = [])
    ∧ ((executeEvalLua envN ⟨pidA, "return 1", ""⟩).1.isError = some true
      ∧ mentionsWallet (firstText (executeEvalLua envN ⟨pidA, "return 1", ""⟩).1) = true
      ∧ (executeEvalLua envN ⟨pidA, "return 1", ""⟩).2 = []) := by
  refine ⟨(claim_C4 envN).1 ⟨pidA, "X", "", [], ""⟩ (by decide) (Or.inl rfl),
    (claim_C4 envN).2.1 ⟨"", "", "", [], "not json"⟩ (Or.inr (by decide)),
    (claim_C4 envN).2.2 ⟨pidA, "return 1", ""⟩ (by decide) (by decide) (Or.inl rfl)⟩

theorem truncTo200_eq_self {s : String} (h : s.length ≤ 200) : truncTo200 s = s := by
  unfold truncTo200
  rw [List.take_of_length_le h]

/-- C5: every rendered output or message-data field of the list-results
formatter is, when longer than 200 characters, exactly its first 200
characters followed by the ellipsis marker "...", and, when of length at
most 200, the field unmodified with no marker. -/
theorem claim_C5 (index : Nat) (cursor out d err : String) (tags : List Tag)
    (hout : out ≠ "") (hd : d ≠ "") :
    formatResultEdge index ⟨cursor, ⟨out, [⟨tags, d⟩], err⟩⟩ =
      ("--- Result " ++ toString (index + 1) ++ " (cursor: " ++ cursor ++ ") ---\n"
        ++ (if err ≠ "" then "Error: " ++ err ++ "\n" else "")
        ++ ("Output: " ++ (if out.length > 200 then truncTo200 out ++ "..." else out) ++ "\n"))
      ++ "Message Action: " ++ actionDisp (findAction tags) ++ "\n"
      ++ ("Message Data: " ++ (if d.length > 200 then truncTo200 d ++ "..." else d) ++ "\n") := by
  unfold formatResultEdge
  dsimp only
  rw [if_pos hout, if_pos hd]
  by_cases h1 : out.length > 200 <;> by_cases h2 : d.length > 200
  · simp [h1, h2, String.ext_iff, String.data_append, List.append_assoc]
  · simp [h1, h2, truncTo200_eq_self (Nat.le_of_not_lt h2), String.ext_iff, String.data_append,
      List.append_assoc]
  · simp [h1, h2, truncTo200_eq_self (Nat.le_of_not_lt h1), String.ext_iff, String.data_append,
      List.append_assoc]
  · simp [h1, h2, truncTo200_eq_self (Nat.le_of_not_lt h1), truncTo200_eq_self (Nat.le_of_not_lt h2),
      String.ext_iff, String.data_append, List.append_assoc]

theorem claim_C5_witness :
    (String.mk (List.replicate 201 'x') ≠ "") ∧ ("dd" : String) ≠ "" ∧
    formatResultEdge 0 ⟨"c", ⟨String.mk (List.replicate 201 'x'), [⟨[], "dd"⟩], ""⟩⟩ =
      ("--- Result " ++ toString (0 + 1) ++ " (cursor: " ++ "c" ++ ") ---\n"
        ++ (if ("" : String) ≠ "" then "Error: " ++ "" ++ "\n" else "")
        ++ ("Output: " ++ (if (String.mk (List.replicate 201 'x')).length > 200 then
              truncTo200 (String.mk (List.replicate 201 'x')) ++ "..."
            else String.mk (List.replicate 201 'x')) ++ "\n"))
      ++ "Message Action: " ++ actionDisp (findAction []) ++ "\n"
      ++ ("Message Data: " ++ (if ("dd" : String).length > 200 then truncTo200 "dd" ++ "..." else "dd") ++ "\n") :=
  ⟨by decide, by decide,
    claim_C5 0 "c" (String.mk (List.replicate 201 'x')) "dd" "" [] (by decide) (by decide)⟩

/-- C6: handleToolCall on any name other than the five registered tool
names returns (rather than raising) an error envelope whose text is
exactly "Unknown tool: " followed by the name, with no network call. -/
theorem claim_C6 (env : Env) (name : String) (args : RawArgs)
    (h1 : name ≠ "ao_query_process") (h2 : name ≠ "ao_send_message")
    (h3 : name ≠ "ao_spawn_process") (h4 : name ≠ "ao_eval_lua")
    (h5 : name ≠ "ao_list_results") :
    handleToolCall env name args = (errEnvelope ("Unknown tool: " ++ name), []) := by
  unfold handleToolCall
  split <;> simp_all [errEnvelope]

theorem claim_C6_witness :
    handleToolCall envN "ao_nonexistent" {} = (errEnvelope "Unknown tool: ao_nonexistent", []) := by
  have h := claim_C6 envN "ao_nonexistent" {} (by decide) (by decide) (by decide) (by decide)
    (by decide)
  rw [h]; decide

/-- C7: whenever the query, send-message, or evaluate-code executor
reaches its network call, the tag sequence it passes has an Action tag as
its first element with the caller-supplied tags appended after it
(evaluate-code accepts no caller tags and passes exactly the Eval Action
tag); the spawn executor's tag sequence is a prefix contributed by the
executor — containing no Action tag, and equal to a single Name tag
exactly when a (truthy) name was supplied, else empty — followed by the
caller-supplied tags. -/
theorem claim_C7 (env : Env) :
    (∀ args : QueryProcessArgs, args.process_id.length = 43 →
      (executeQueryProcess env args).2 =
        [NetCall.dryrun args.process_id
          ({ name := "Action", value := if args.action = "" then "Info" else args.action } :: args.tags)
          (if args.data = "" then "{}" else args.data)])
    ∧ (∀ args : SendMessageArgs, args.process_id.length = 43 → args.wallet_json ≠ "" →
        (env.jsonPretty args.wallet_json).isSome →
      ∃ rest, (executeSendMessage env args).2 =
        NetCall.signer :: NetCall.message args.process_id
          ({ name := "Action", value := args.action } :: args.tags)
          (if args.data = "" then "{}" else args.data) :: rest)
    ∧ (∀ args : EvalLuaArgs, args.process_id.length = 43 →
        ¬(args.code = "" ∨ args.code.data.all (fun c => c.isWhitespace)) →
        args.wallet_json ≠ "" → (env.jsonPretty args.wallet_json).isSome →
      ∃ rest, (executeEvalLua env args).2 =
        NetCall.signer :: NetCall.message args.process_id
          [{ name := "Action", value := "Eval" }] args.code :: rest)
    ∧ (∀ args : SpawnProcessArgs, args.wallet_json ≠ "" →
        (env.jsonPretty args.wallet_json).isSome →
      (executeSpawnProcess env args).2 =
        [NetCall.signer, NetCall.spawn
          (if args.module = "" then AOS_MODULE else args.module)
          (if args.scheduler = "" then SCHEDULER else args.scheduler)
          ((if args.name ≠ "" then [{ name := "Name", value := args.name }] else []) ++ args.tags)]
      ∧ ∀ t ∈ (if args.name ≠ "" then [({ name := "Name", value := args.name } : Tag)] else []),
          t.name ≠ "Action") := by
  refine ⟨fun args hpid => ?_, fun args hpid hw hwp => ?_, fun args hpid hcode hw hwp => ?_,
    fun args hw hwp => ?_⟩
  · unfold executeQueryProcess
    rw [if_neg (valid_pid_cond hpid)]
    dsimp only
    repeat' split
    all_goals rfl
  · obtain ⟨j, hj⟩ := Option.isSome_iff_exists.mp hwp
    unfold executeSendMessage
    rw [if_neg (valid_pid_cond hpid), if_neg hw, hj]
    dsimp only
    cases hm : env.messageRes with
    | error e => exact ⟨[], rfl⟩
    | ok mid =>
      refine ⟨[NetCall.result args.process_id mid], ?_⟩
      dsimp only
      repeat' split
      all_goals rfl
  · obtain ⟨j, hj⟩ := Option.isSome_iff_exists.mp hwp
    unfold executeEvalLua
    rw [if_neg (valid_pid_cond hpid), if_neg hcode, if_neg hw, hj]
    dsimp only
    cases hm : env.messageRes with
    | error e => exact ⟨[], rfl⟩
    | ok mid =>
      refine ⟨[NetCall.result args.process_id mid], ?_⟩
      dsimp only
      repeat' split
      all_goals rfl
  · obtain ⟨j, hj⟩ := Option.isSome_iff_exists.mp hwp
    unfold executeSpawnProcess
    rw [if_neg hw, hj]
    dsimp only
    constructor
    · repeat' split
      all_goals rfl
    · by_cases hn : args.name ≠ "" <;> simp [hn]

theorem claim_C7_witness :
    (executeQueryProcess envN ⟨pidA, "", "", [⟨"X", "1"⟩]⟩).2 =
      [NetCall.dryrun pidA [⟨"Action", "Info"⟩, ⟨"X", "1"⟩] "{}"]
    ∧ (executeSendMessage envN ⟨pidA, "Go", "", [], "{}"⟩).2.take 2 =
      [NetCall.signer, NetCall.message pidA [⟨"Action", "Go"⟩] "{}"]
    ∧ (executeEvalLua envN ⟨pidA, "return 1", "{}"⟩).2.take 2 =
      [NetCall.signer, NetCall.message pidA [⟨"Action", "Eval"⟩] "return 1"]
    ∧ (executeSpawnProcess envN ⟨"My", "", "", [⟨"X", "1"⟩], "{}"⟩).2 =
      [NetCall.signer, NetCall.spawn AOS_MODULE SCHEDULER [⟨"Name", "My"⟩, ⟨"X", "1"⟩]] := by
  have h := claim_C7 envN
  refine ⟨?_, ?_, ?_, ?_⟩
  · have h1 := h.1 ⟨pidA, "", "", [⟨"X", "1"⟩]⟩ (by decide)
    rw [h1]; decide
  · obtain ⟨rest, hr⟩ := h.2.1 ⟨pidA, "Go", "", [], "{}"⟩ (by decide) (by decide) (by decide)
    rw [hr]; rfl
  · obtain ⟨rest, hr⟩ := h.2.2.1 ⟨pidA, "return 1", "{}"⟩ (by decide) (by decide) (by decide)
      (by decide)
    rw [hr]; rfl
  · have h4 := (h.2.2.2 ⟨"My", "", "", [⟨"X", "1"⟩], "{}"⟩ (by decide) (by decide)).1
    rw [h4]; decide

/-- C8: executeEvalLua with empty or whitespace-only code (and a
43-character process id) returns an error envelope and performs no
signing or network-client call. -/
theorem claim_C8 (env : Env) (args : EvalLuaArgs) (hpid : args.process_id.length = 43)
    (hblank : args.code.data.all (fun c => c.isWhitespace)) :
    (executeEvalLua env args).1.isError = some true ∧ (executeEvalLua env args).2 = [] := by
  unfold executeEvalLua
  rw [if_neg (valid_pid_cond hpid), if_pos (Or.inr hblank)]
  exact ⟨rfl, rfl⟩

theorem claim_C8_witness :
    (executeEvalLua envN ⟨pidA, " \t\n", "{}"⟩).1.isError = some true
    ∧ (executeEvalLua envN ⟨pidA, " \t\n", "{}"⟩).2 = [] :=
  claim_C8 envN ⟨pidA, " \t\n", "{}"⟩ (by decide) (by decide)

theorem queryShape (env : Env) (args : QueryProcessArgs) :
    goodShape (executeQueryProcess env args).1 := by
  unfold executeQueryProcess
  dsimp only
  repeat' split
  all_goals exact ⟨_, rfl⟩

theorem sendShape (env : Env) (args : SendMessageArgs) :
    goodShape (executeSendMessage env args).1 := by
  unfold executeSendMessage
  dsimp only
  repeat' split
  all_goals exact ⟨_, rfl⟩

theorem spawnShape (env : Env) (args : SpawnProcessArgs) :
    goodShape (executeSpawnProcess env args).1 := by
  unfold executeSpawnProcess
  dsimp only
  repeat' split
  all_goals exact ⟨_, rfl⟩

theorem evalShape (env : Env) (args : EvalLuaArgs) :
    goodShape (executeEvalLua env args).1 := by
  unfold executeEvalLua
  dsimp only
  repeat' split
  all_goals exact ⟨_, rfl⟩

theorem listShape (env : Env) (args : ListResultsArgs) :
    goodShape (executeListResults env args).1 := by
  unfold executeListResults
  dsimp only
  repeat' split
  all_goals exact ⟨_, rfl⟩

/-- C9: for every tool name and argument mapping, the envelope returned by
handleToolCall — and the one returned by each of the five executors on
every branch, success or error — has a content array of length exactly
one whose single element has type "text". -/
theorem claim_C9 :
    (∀ env name args, goodShape (handleToolCall env name args).1)
    ∧ (∀ env args, goodShape (executeQueryProcess env args).1)
    ∧ (∀ env args, goodShape (executeSendMessage env args).1)
    ∧ (∀ env args, goodShape (executeSpawnProcess env args).1)
    ∧ (∀ env args, goodShape (executeEvalLua env args).1)
    ∧ (∀ env args, goodShape (executeListResults env args).1) := by
  refine ⟨fun env name args => ?_, queryShape, sendShape, spawnShape, evalShape, listShape⟩
  unfold handleToolCall
  split
  · exact queryShape env _
  · exact sendShape env _
  · exact spawnShape env _
  · exact evalShape env _
  · exact listShape env _
  · exact ⟨_, rfl⟩

/-- C10: falsy-but-present values default like absent ones — a query call
with action equal to the empty string sends an Action tag with value
"Info", a query call with data equal to the empty string sends data "{}",
and a list-results call with limit equal to 0 queries the network with
limit 10 (and empty sort defaults to "DESC"). -/
theorem claim_C10 (env : Env) :
    (∀ d tg, (executeQueryProcess env ⟨pidA, "", d, tg⟩).2 =
      [NetCall.dryrun pidA ({ name := "Action", value := "Info" } :: tg)
        (if d = "" then "{}" else d)])
    ∧ (∀ a tg, (executeQueryProcess env ⟨pidA, a, "", tg⟩).2 =
      [NetCall.dryrun pidA
        ({ name := "Action", value := if a = "" then "Info" else a } :: tg) "{}"])
    ∧ (∀ f s, (executeListResults env ⟨pidA, 0, f, s⟩).2 =
      [NetCall.results pidA 10 f (if s = "" then "DESC" else s)]) := by
  have hc : ¬(pidA = "" ∨ pidA.length ≠ 43) := by decide
  refine ⟨fun d tg => ?_, fun a tg => ?_, fun f s => ?_⟩
  · unfold executeQueryProcess
    dsimp only
    rw [if_neg hc, if_pos rfl]
    repeat' split
    all_goals rfl
  · unfold executeQueryProcess
    dsimp only
    rw [if_neg hc, if_pos rfl]
    repeat' split
    all_goals rfl
  · unfold executeListResults
    dsimp only
    rw [if_neg hc, if_pos rfl]
    repeat' split
    all_goals rfl

end AoMcp
